import Mathlib

/-!
Verification of the ZotBag synchronization core (wallabagSync.ts,
zoteroIntegration.ts, wallabagApi.ts) against its natural-language
specification.

The TypeScript sources are shallowly embedded: Zotero items, the item
store, the sync-scheduler state and the staging file system become
explicit Lean structures; network calls and per-entry failures become
oracle parameters; JavaScript string operations used by the code
(String.prototype.includes, String.prototype.trim, the one legacy-marker
regex replace) are modelled on character lists so that every definition
evaluates inside the kernel.
-/

namespace ZotBag

/-! ## String utilities -/

/-- Substring containment on character lists: true when "pat" occurs as a
contiguous run inside "l".  Models JavaScript String.prototype.includes,
which is what both Zotero's "extra contains" search condition
(wallabagSync.ts line 289) and the update path's "extra.includes"
checks (wallabagSync.ts lines 334, 339) perform. -/
def occursIn (pat : List Char) : List Char → Bool
  | [] => pat.isEmpty
  | c :: rest => pat.isPrefixOf (c :: rest) || occursIn pat rest

/-- String-level wrapper of occursIn: "s contains pat". -/
def strContains (s pat : String) : Bool :=
  occursIn pat.data s.data

/-- JavaScript String.prototype.trim: drop whitespace from both ends.
Used for the author strings ("author.trim()", zoteroIntegration.ts
line 127 and wallabagSync.ts line 356) and the final "extra.trim()"
(wallabagSync.ts line 346). -/
def jsTrim (s : String) : String :=
  ⟨((s.data.dropWhile Char.isWhitespace).reverse.dropWhile Char.isWhitespace).reverse⟩

/-- The date part of an ISO timestamp string: characters before the first
letter T.  Models "new Date(x).toISOString().split(\x22T\x22)[0]"
(zoteroIntegration.ts line 104, wallabagSync.ts line 313) for the
already-ISO timestamps the remote service returns; JavaScript Date
normalization is abstracted away (no claim examines the date field). -/
def isoDatePart (s : String) : String :=
  ⟨s.data.takeWhile (fun c => c ≠ 'T')⟩

/-! ## Data model -/

/-- A remote catalog entry (interface WallabagEntry, wallabagApi.ts).
Fields that the synchronization core never reads (uid, hashed_url,
given_url, annotations, mimetype, reading_time, links, ...) are omitted;
tags are modelled by their label strings since the code only ever reads
"tag.label". -/
structure WallabagEntry where
  id : Nat
  title : String
  url : String
  content : String
  created_at : String
  updated_at : String
  domain_name : String
  published_by : List String
  tags : List String
  is_starred : Nat
  is_archived : Nat
deriving DecidableEq, Repr

/-- A creator entry of a Zotero item. -/
structure Creator where
  firstName : String
  lastName : String
  creatorType : String
deriving DecidableEq, Repr

/-- The fields of a Zotero item that the synchronization core touches.
Attachments are modelled separately (AttachFs below) because in the
source they live behind Zotero.Attachments, not on the item record. -/
structure ZoteroItem where
  itemType : String
  title : String
  url : String
  date : String
  dateAdded : String
  websiteTitle : String
  shortTitle : String
  extra : String
  creators : List Creator
  tags : List String
deriving DecidableEq, Repr

/-- A fresh "new Zotero.Item(\x22webpage\x22)" (zoteroIntegration.ts
line 95): every field empty. -/
def newWebpageItem : ZoteroItem :=
  { itemType := "webpage", title := "", url := "", date := "", dateAdded := ""
  , websiteTitle := "", shortTitle := "", extra := "", creators := [], tags := [] }

/-- Zotero's Item.setCreator(orderIndex, data): replace the creator at
that index, appending when the index is the current length (the only
shapes the embedded code produces; a sparse index beyond the length is
also modelled as an append). -/
def setCreatorAt (cs : List Creator) (i : Nat) (c : Creator) : List Creator :=
  if i < cs.length then cs.set i c else cs ++ [c]

/-- Zotero's Item.addTag: adds the tag only when not already present. -/
def addTagTo (it : ZoteroItem) (t : String) : ZoteroItem :=
  if it.tags.contains t then it else { it with tags := it.tags ++ [t] }

/-! ## Reconciler: creating an item (zoteroIntegration.ts lines 87-153) -/

/-- Metadata construction of createZoteroItemFromWallabagEntry
(zoteroIntegration.ts lines 95-153), statement by statement:
title/url only when non-empty (lines 98-99), date and dateAdded from
created_at when non-empty (lines 102-109), websiteTitle from domain_name
when non-empty (lines 112-114), shortTitle from the entry id (line 117),
the extra field set to the bare id followed by the deep-link line
(lines 120-122; note the source writes the template literal
"entry.id newline Wallabag Link: link" with no marker text before the
id), creators from published_by with setCreator called at constant
index 0 for every non-empty author (lines 125-136), tags from the
non-empty labels (lines 139-145) and the Starred tag when is_starred
equals 1 (lines 148-150).  The collection assignment and the attachment
downloads that follow the save (lines 156-219) do not touch these
fields; the attachment stage is modelled by createFormatsAttempted and
saveAttachment below. -/
def createZoteroItemFromWallabagEntry (serverUrl : String) (entry : WallabagEntry) : ZoteroItem :=
  let item := newWebpageItem
  let item := if entry.title ≠ "" then { item with title := entry.title } else item
  let item := if entry.url ≠ "" then { item with url := entry.url } else item
  let item := if entry.created_at ≠ "" then
      { item with date := isoDatePart entry.created_at, dateAdded := entry.created_at }
    else item
  let item := if entry.domain_name ≠ "" then { item with websiteTitle := entry.domain_name } else item
  let item := { item with shortTitle := toString entry.id }
  let wallabagLink := serverUrl ++ "/view/" ++ toString entry.id
  let item := { item with extra := toString entry.id ++ "\n" ++ "Wallabag Link: " ++ wallabagLink }
  let newCreators := entry.published_by.foldl
    (fun cs author =>
      if author ≠ "" ∧ jsTrim author ≠ "" then
        setCreatorAt cs 0 { firstName := "", lastName := jsTrim author, creatorType := "author" }
      else cs)
    item.creators
  let item := { item with creators := newCreators }
  let item := entry.tags.foldl (fun it lbl => if lbl ≠ "" then addTagTo it lbl else it) item
  let item := if entry.is_starred = 1 then addTagTo item "Starred" else item
  item

/-! ## RecordMatcher (wallabagSync.ts lines 284-294) -/

/-- The search text used by the matcher (wallabagSync.ts line 289). -/
def matcherNeedle (entryId : Nat) : String :=
  "Wallabag ID: " ++ toString entryId

/-- findExistingZoteroItems (wallabagSync.ts lines 284-294): a Zotero
search over the library for items whose extra field contains the text
"Wallabag ID: entryId" (raw substring containment), returning all
matches in library order.  The libraryID and the not-a-note conditions
are modelled by the store holding only this library's non-note items. -/
def findExistingZoteroItems (items : List ZoteroItem) (entryId : Nat) : List ZoteroItem :=
  items.filter (fun it => strContains it.extra (matcherNeedle entryId))

/-! ## Legacy marker stripping (wallabagSync.ts line 344) -/

/-- The characters of the legacy marker tag. -/
def legacyTag : List Char := "wallabag-id: ".data

/-- Whether the regex "wallabag-id: \d+\n?" matches at the head of l
(the tag followed by at least one digit). -/
def legacyHere (l : List Char) : Bool :=
  legacyTag.isPrefixOf l &&
    (match l.drop legacyTag.length with
     | c :: _ => c.isDigit
     | [] => false)

/-- Drop one regex match from the head of l: the tag, the digit run and
one optional newline. -/
def consumeLegacy (l : List Char) : List Char :=
  match (l.drop legacyTag.length).dropWhile Char.isDigit with
  | '\n' :: t => t
  | t => t

/-- Fuel-indexed scanner for the global regex replace; the fuel (the
list length) bounds the number of positions examined. -/
def stripLegacyGo : Nat → List Char → List Char
  | 0, l => l
  | _ + 1, [] => []
  | fuel + 1, c :: rest =>
    if legacyHere (c :: rest) then stripLegacyGo fuel (consumeLegacy (c :: rest))
    else c :: stripLegacyGo fuel rest

/-- The global replace "extra.replace(/wallabag-id: \d+\n?/g, '')"
(wallabagSync.ts line 344): remove every occurrence of the legacy
marker pattern. -/
def stripLegacyMarkers (s : String) : String :=
  ⟨stripLegacyGo s.data.length s.data⟩

/-! ## Reconciler: updating an item (wallabagSync.ts lines 302-388) -/

/-- Metadata update of updateZoteroItem (wallabagSync.ts lines 302-388),
statement by statement: title/url only when non-empty (lines 307-308),
date and dateAdded from created_at when non-empty (lines 311-318),
websiteTitle when non-empty (lines 321-323), shortTitle from the id
(line 326), the extra field extended with the "Wallabag ID:" line when
absent (lines 334-336) and the "Wallabag Link:" line when absent
(lines 339-341), the legacy markers stripped and the result trimmed
(lines 344-346), creators fully replaced when published_by is non-empty
with setCreator at the loop index for each non-empty author
(lines 349-364), all tags removed then re-added from the entry
(lines 367-380) plus the Starred tag when is_starred equals 1
(lines 383-385).  The PDF section after the save (lines 390-447) only
touches attachments; it is modelled by updateFormatsAttempted and the
staging-file model below. -/
def updateZoteroItem (serverUrl : String) (item : ZoteroItem) (entry : WallabagEntry) : ZoteroItem :=
  let item := if entry.title ≠ "" then { item with title := entry.title } else item
  let item := if entry.url ≠ "" then { item with url := entry.url } else item
  let item := if entry.created_at ≠ "" then
      { item with date := isoDatePart entry.created_at, dateAdded := entry.created_at }
    else item
  let item := if entry.domain_name ≠ "" then { item with websiteTitle := entry.domain_name } else item
  let item := { item with shortTitle := toString entry.id }
  let wallabagLink := serverUrl ++ "/view/" ++ toString entry.id
  let extra := item.extra
  let extra := if !(strContains extra ("Wallabag ID: " ++ toString entry.id)) then
      extra ++ "\n" ++ "Wallabag ID: " ++ toString entry.id
    else extra
  let extra := if !(strContains extra ("Wallabag Link: " ++ wallabagLink)) then
      extra ++ "\n" ++ "Wallabag Link: " ++ wallabagLink
    else extra
  let extra := stripLegacyMarkers extra
  let item := { item with extra := jsTrim extra }
  let replacedCreators := entry.published_by.enum.foldl
    (fun cs ia =>
      if ia.2 ≠ "" ∧ jsTrim ia.2 ≠ "" then
        setCreatorAt cs ia.1 { firstName := "", lastName := jsTrim ia.2, creatorType := "author" }
      else cs)
    []
  let item := if entry.published_by.length > 0 then
      { item with creators := replacedCreators }
    else item
  let item := { item with tags := [] }
  let item := entry.tags.foldl (fun it lbl => if lbl ≠ "" then addTagTo it lbl else it) item
  let item := if entry.is_starred = 1 then addTagTo item "Starred" else item
  item

/-! ## Entry processing (wallabagSync.ts lines 234-276) -/

/-- The aggregate counters returned by a pass. -/
structure Tally where
  added : Nat
  updated : Nat
  errors : Nat
deriving DecidableEq, Repr

/-- Mutate, in place, the first item of the store satisfying p (the
store models the Zotero library; "existingItems[0]" at wallabagSync.ts
line 262 is the first search match, and updateZoteroItem mutates that
item in place). -/
def updateFirstWhere (p : ZoteroItem → Bool) (f : ZoteroItem → ZoteroItem) :
    List ZoteroItem → List ZoteroItem
  | [] => []
  | x :: xs => if p x then f x :: xs else x :: updateFirstWhere p f xs

/-- processEntries (wallabagSync.ts lines 234-276).  For each entry in
order: look up existing items via findExistingZoteroItems; when the
search finds a match, update the first match in place and count
"updated"; otherwise create a new item and count "added".  Any failure
thrown while reconciling one entry is caught by the per-iteration
try/catch (lines 249-272) and counted as "errors", and the loop
continues with the next entry; the oracle "fails" says which entries
throw (modelling a throw raised before the entry's persistence, e.g.
by the search).  The downloadPdf flag and the progress callback are
omitted: the flag only drives the attachment stage (modelled separately
by createFormatsAttempted, updateFormatsAttempted and saveAttachment)
and neither affects item metadata nor the tally. -/
def processEntries (serverUrl : String) (fails : WallabagEntry → Bool) :
    List WallabagEntry → List ZoteroItem → Tally × List ZoteroItem
  | [], items => ({ added := 0, updated := 0, errors := 0 }, items)
  | e :: rest, items =>
    if fails e then
      let r := processEntries serverUrl fails rest items
      ({ r.1 with errors := r.1.errors + 1 }, r.2)
    else
      let existing := findExistingZoteroItems items e.id
      if existing.length > 0 then
        let items' := updateFirstWhere
          (fun it => strContains it.extra (matcherNeedle e.id))
          (fun it => updateZoteroItem serverUrl it e) items
        let r := processEntries serverUrl fails rest items'
        ({ r.1 with updated := r.1.updated + 1 }, r.2)
      else
        let items' := items ++ [createZoteroItemFromWallabagEntry serverUrl e]
        let r := processEntries serverUrl fails rest items'
        ({ r.1 with added := r.1.added + 1 }, r.2)

/-! ## SyncScheduler pass (wallabagSync.ts lines 89-225) -/

/-- The process-wide state a pass reads and writes: the single-flight
flag (field syncInProgress of class WallabagSync, line 11), the
last-sync watermark (preference wallabag.sync.lastTimestamp) and the
item store. -/
structure SyncState where
  syncInProgress : Bool
  lastTimestamp : Nat
  items : List ZoteroItem
deriving Repr

/-- How one invocation of syncWallabagEntries settles: returned null
because a sync was already in progress (line 106), returned the tally
(line 203), or rethrew the pass-level error (line 223). -/
inductive SyncResult where
  | rejected
  | completed (t : Tally)
  | failed (msg : String)
deriving DecidableEq, Repr

/-- The "since" argument passed to getAllEntries (wallabagSync.ts
lines 139-152): undefined on the first sync (watermark 0), the
watermark otherwise. -/
def syncSinceArg (st : SyncState) : Option Nat :=
  if st.lastTimestamp = 0 then none else some st.lastTimestamp

/-- syncWallabagEntries (wallabagSync.ts lines 89-225).  If the
in-progress flag is set the call is rejected and returns null
(lines 91-107).  Otherwise the flag is set (line 110) and the body
runs inside try/catch: read the watermark (line 139), fetch the entry
list (line 151; the "listing" oracle stands for the network outcome of
getAllEntries — an authentication failure or a listing failure
surfaces here as an error), process the entries (line 175), then set
the watermark to "now" (lines 187-188) and return the tally.  A thrown
error is logged and rethrown by the catch block (lines 204-224).  The
source has no finally block and no other assignment to the flag: on
both the completed and the failed path the flag stays set.  Progress
windows and the downloadPdf preference are UI/attachment concerns and
are omitted as in processEntries. -/
def syncWallabagEntries (serverUrl : String) (fails : WallabagEntry → Bool)
    (listing : Option Nat → Except String (List WallabagEntry)) (now : Nat)
    (st : SyncState) : SyncResult × SyncState :=
  if st.syncInProgress then (.rejected, st)
  else
    let st1 : SyncState := { st with syncInProgress := true }
    match listing (syncSinceArg st1) with
    | .error e => (.failed e, st1)
    | .ok entries =>
      let r := processEntries serverUrl fails entries st1.items
      (.completed r.1, { st1 with items := r.2, lastTimestamp := now })

/-! ## AttachmentFetcher: staging file discipline
(zoteroIntegration.ts lines 12-64; the PDF block of updateZoteroItem,
wallabagSync.ts lines 399-445, repeats the same sequence inline) -/

/-- The observable attachment-side state: whether the transient staging
file currently exists in the temp directory, and the content kinds
attached so far. -/
structure AttachFs where
  stagingExists : Bool
  attachments : List String
deriving DecidableEq, Repr

/-- saveAttachment (zoteroIntegration.ts lines 12-64).  The staging file
is created and the payload written (lines 22-43); then
Zotero.Attachments.importFromFile is called (lines 46-51, outcome given
by the importOk oracle).  Only after a successful import does the code
reach the removal of the staging file (lines 54-56).  When the import
throws, the catch block (lines 60-63) logs and rethrows without any
cleanup, so the error carries a state in which the staging file still
exists. -/
def saveAttachment (importOk : Bool) (contentType : String) (fs : AttachFs) :
    Except AttachFs AttachFs :=
  let fs1 := { fs with stagingExists := true }
  if importOk then
    let fs2 := { fs1 with attachments := fs1.attachments ++ [contentType] }
    .ok { fs2 with stagingExists := false }
  else
    .error fs1

/-- The staging-file flag carried on either exit path of saveAttachment. -/
def stagingAfter : Except AttachFs AttachFs → Bool
  | .ok fs => fs.stagingExists
  | .error fs => fs.stagingExists

/-! ## Format selection (zoteroIntegration.ts lines 174-215,
wallabagSync.ts lines 390-447) -/

/-- The per-format download toggles (preferences
wallabag.formats.xml/json/txt/csv/pdf/epub). -/
structure FormatPrefs where
  xml : Bool
  json : Bool
  txt : Bool
  csv : Bool
  pdf : Bool
  epub : Bool
deriving DecidableEq, Repr

/-- Reading one per-format toggle, keyed by the format name, in the
order of the formats array (zoteroIntegration.ts lines 193-200). -/
def formatPrefEnabled (p : FormatPrefs) : String → Bool
  | "xml" => p.xml
  | "json" => p.json
  | "txt" => p.txt
  | "csv" => p.csv
  | "pdf" => p.pdf
  | "epub" => p.epub
  | _ => false

/-- The formats whose download is attempted by the create path
(zoteroIntegration.ts lines 174-215): when the legacy downloadPdf flag
is set, only the PDF export is fetched (lines 182-190) and the
per-format preferences are never read; otherwise the loop over the
formats array runs, attempting exactly the formats whose preference is
enabled, in array order (lines 192-214). -/
def createFormatsAttempted (downloadPdf : Bool) (prefs : FormatPrefs) : List String :=
  if downloadPdf then ["pdf"]
  else ["xml", "json", "txt", "csv", "pdf", "epub"].filter (formatPrefEnabled prefs)

/-- The formats whose download is attempted by the update path of a
sync pass (wallabagSync.ts lines 390-447): only when the legacy
downloadPdf flag is set and the item has no PDF attachment yet is the
PDF export fetched; no per-format preference is read and no other
format can be downloaded. -/
def updateFormatsAttempted (downloadPdf : Bool) (hasPdf : Bool) : List String :=
  if downloadPdf then (if hasPdf then [] else ["pdf"]) else []

/-! ## EntryServiceClient pagination (wallabagApi getAllEntries,
src/unnamed/part_001 lines 273-316) -/

/-- The page-level response of getEntries (interface EntriesResponse):
the reported total page count, the reported total entry count and the
embedded items. -/
structure EntriesPage where
  pages : Nat
  total : Nat
  items : List WallabagEntry
deriving Repr

/-- The sequential loop over the remaining pages (part_001
lines 294-308), instrumented: the accumulator carries the entries
gathered so far, the page numbers requested so far and the progress
invocations made so far (cumulative count with reported total). -/
def getAllEntriesLoop (fetch : Nat → EntriesPage) (total : Nat) :
    List Nat → List WallabagEntry × List Nat × List (Nat × Nat) →
    List WallabagEntry × List Nat × List (Nat × Nat)
  | [], acc => acc
  | p :: ps, acc =>
    let page := fetch p
    let es := acc.1 ++ page.items
    getAllEntriesLoop fetch total ps (es, acc.2.1 ++ [p], acc.2.2 ++ [(es.length, total)])

/-- getAllEntries (part_001 lines 273-316): fetch page 1, read the
reported page and entry totals from it, start the result with the first
page's items and report progress (lines 281-291); then, when more than
one page is reported, fetch pages 2 .. totalPages sequentially,
concatenating items and reporting progress after each page
(lines 294-308).  The "fetch" oracle stands for a successful getEntries
call; the claim settled against this model concerns the success path. -/
def getAllEntries (fetch : Nat → EntriesPage) :
    List WallabagEntry × List Nat × List (Nat × Nat) :=
  let firstPage := fetch 1
  let totalPages := firstPage.pages
  let totalEntries := firstPage.total
  let allEntries := firstPage.items
  let acc0 := (allEntries, [1], [(allEntries.length, totalEntries)])
  if totalPages > 1 then
    let remainingPages := (List.range (totalPages - 1)).map (fun i => i + 2)
    getAllEntriesLoop fetch totalEntries remainingPages acc0
  else acc0

/-- Shorthand for the items of one fetched page. -/
def pageItems (fetch : Nat → EntriesPage) (p : Nat) : List WallabagEntry :=
  (fetch p).items

/-- Cumulative progress reports produced while folding over a list of
page numbers, starting from a base count: helper for reasoning about
the instrumented pagination loop. -/
def cumAfter (fetch : Nat → EntriesPage) (total : Nat) : Nat → List Nat → List (Nat × Nat)
  | _, [] => []
  | base, p :: ps =>
    (base + (fetch p).items.length, total) ::
      cumAfter fetch total (base + (fetch p).items.length) ps

/-! ## Concrete inputs used by the closed theorems -/

/-- The specification's scenario entry: id 42, title "Foo",
url "http://x", one tag "x", starred. -/
def entry42 : WallabagEntry :=
  { id := 42, title := "Foo", url := "http://x", content := ""
  , created_at := "2024-01-01T00:00:00Z", updated_at := "2024-01-01T00:00:00Z"
  , domain_name := "", published_by := [], tags := ["x"]
  , is_starred := 1, is_archived := 0 }

/-- An entry with two non-empty author strings. -/
def entryTwoAuthors : WallabagEntry :=
  { id := 7, title := "Pair", url := "http://y", content := ""
  , created_at := "", updated_at := "", domain_name := ""
  , published_by := ["Alice", "Bob"], tags := []
  , is_starred := 0, is_archived := 0 }

/-- A stored item whose extra field carries the marker of entry 123,
in exactly the shape the update path maintains. -/
def item123 : ZoteroItem :=
  { newWebpageItem with
      title := "Longer"
    , shortTitle := "123"
    , extra := "Wallabag ID: 123" ++ "\n" ++ "Wallabag Link: https://s/view/123" }

/-- A three-page catalog: every page reports 3 pages and 5 entries in
total; page p carries the single entry with id p. -/
def fetchThreePages : Nat → EntriesPage :=
  fun p =>
    { pages := 3, total := 5
    , items := [{ entry42 with id := p, title := "P" ++ toString p }] }

/-! ## Helper lemmas -/

/-- Boolean prefix test is complete: a genuine list-prefix is accepted. -/
theorem isPrefixOf_eq_true : ∀ {l₁ l₂ : List Char}, l₁ <+: l₂ → l₁.isPrefixOf l₂ = true := by
  intro l₁
  induction l₁ with
  | nil => intro l₂ _; simp [List.isPrefixOf]
  | cons a t ih =>
    intro l₂ h
    obtain ⟨r, hr⟩ := h
    subst hr
    simp only [List.cons_append, List.isPrefixOf, beq_self_eq_true, Bool.true_and]
    exact ih ⟨r, rfl⟩

/-- occursIn is complete: a genuine contiguous occurrence is found. -/
theorem occursIn_eq_true : ∀ {l₂ l₁ : List Char}, l₁ <:+: l₂ → occursIn l₁ l₂ = true := by
  intro l₂
  induction l₂ with
  | nil =>
    intro l₁ h
    obtain ⟨s, t, hst⟩ := h
    have hnil : l₁ = [] := by
      cases s <;> cases l₁ <;> simp_all
    subst hnil
    simp [occursIn]
  | cons c rest ih =>
    intro l₁ h
    obtain ⟨s, t, hst⟩ := h
    cases s with
    | nil =>
      simp only [List.nil_append] at hst
      have hpre : l₁ <+: c :: rest := ⟨t, hst⟩
      simp [occursIn, isPrefixOf_eq_true hpre]
    | cons d s' =>
      simp only [List.cons_append] at hst
      injection hst with hd htl
      have htail : l₁ <:+: rest := ⟨s', t, htl⟩
      simp [occursIn, ih htail]

/-- Changing only the in-progress flag does not change the "since"
argument of the pass. -/
theorem syncSinceArg_setFlag (st : SyncState) (b : Bool) :
    syncSinceArg { st with syncInProgress := b } = syncSinceArg st := rfl

/-! ## Claim theorems -/

/-- C1: the claim says the in-progress flag is cleared whenever
syncWallabagEntries settles.  The code never clears it: after a
completed pass the flag is still set, a later request is rejected, and
after a failed pass the flag is likewise still set.  This theorem
evaluates the embedded code at the failing input (a fresh scheduler,
an empty catalog, then a second request; and a fresh scheduler whose
listing throws). -/
theorem c1_flag_never_cleared :
    (syncWallabagEntries "https://s" (fun _ => false) (fun _ => .ok []) 100
      { syncInProgress := false, lastTimestamp := 0, items := [] }).1 =
        .completed { added := 0, updated := 0, errors := 0 } ∧
    (syncWallabagEntries "https://s" (fun _ => false) (fun _ => .ok []) 100
      { syncInProgress := false, lastTimestamp := 0, items := [] }).2.syncInProgress = true ∧
    (syncWallabagEntries "https://s" (fun _ => false) (fun _ => .ok []) 200
      (syncWallabagEntries "https://s" (fun _ => false) (fun _ => .ok []) 100
        { syncInProgress := false, lastTimestamp := 0, items := [] }).2).1 = .rejected ∧
    (syncWallabagEntries "https://s" (fun _ => false) (fun _ => .error "boom") 100
      { syncInProgress := false, lastTimestamp := 0, items := [] }).1 = .failed "boom" ∧
    (syncWallabagEntries "https://s" (fun _ => false) (fun _ => .error "boom") 100
      { syncInProgress := false, lastTimestamp := 0, items := [] }).2.syncInProgress = true := by
  decide

/-- C2: the claim says a second pass over the same entries with an
unmoved watermark produces zero additional creates.  In the code the
matcher searches the extra field for the text "Wallabag ID: id", but
the create path writes the extra field without that marker text, so an
item created in the first pass is never found again: re-processing the
scenario entry creates a second record (store grows from 1 to 2 items,
second tally counts another "added" and no "updated").  This theorem
evaluates the embedded code at the failing input. -/
theorem c2_second_pass_creates_duplicate :
    strContains (createZoteroItemFromWallabagEntry "https://w.example" entry42).extra
      (matcherNeedle 42) = false ∧
    (processEntries "https://w.example" (fun _ => false) [entry42] []).1 =
      { added := 1, updated := 0, errors := 0 } ∧
    (processEntries "https://w.example" (fun _ => false) [entry42]
      (processEntries "https://w.example" (fun _ => false) [entry42] []).2).1 =
        { added := 1, updated := 0, errors := 0 } ∧
    (processEntries "https://w.example" (fun _ => false) [entry42]
      (processEntries "https://w.example" (fun _ => false) [entry42] []).2).2.length = 2 := by
  decide

/-- C3: the claim says the record created on first sync carries the
metadata marker line "External ID: 42" (the code's concrete marker
spelling is "Wallabag ID: 42") followed by the deep-link line.  The
code writes the bare id with no marker text: the created extra field is
"42" then the link line, and it contains neither marker spelling.  The
sort key and tag parts of the claim do hold (shortTitle "42", tags
x and Starred).  This theorem evaluates the embedded code at the
scenario entry. -/
theorem c3_created_metadata_lacks_marker :
    (createZoteroItemFromWallabagEntry "https://w.example" entry42).extra =
      "42" ++ "\n" ++ "Wallabag Link: https://w.example/view/42" ∧
    strContains (createZoteroItemFromWallabagEntry "https://w.example" entry42).extra
      "External ID: 42" = false ∧
    strContains (createZoteroItemFromWallabagEntry "https://w.example" entry42).extra
      "Wallabag ID: 42" = false ∧
    (createZoteroItemFromWallabagEntry "https://w.example" entry42).shortTitle = "42" ∧
    (createZoteroItemFromWallabagEntry "https://w.example" entry42).tags = ["x", "Starred"] := by
  decide

/-- C4 counterexample: the claim says looking up the shorter id never
matches a record whose marker carries the longer id.  At the concrete
input it does: the lookup for id 12 returns the stored record whose
marker line carries id 123, because the matcher uses raw substring
containment. -/
theorem c4_shorter_id_matches_longer :
    findExistingZoteroItems [item123] 12 = [item123] := by
  decide

/-- C4 amended: matching is raw substring containment on the text
"Wallabag ID: id", so whenever one id's decimal string is a list-prefix
of another's, looking up the shorter id does match a record whose extra
field starts with the longer id's marker line. -/
theorem c4_matching_is_substring_containment (it : ZoteroItem) (a b : Nat) (rest : String)
    (hpre : (toString a).data <+: (toString b).data)
    (hextra : it.extra = "Wallabag ID: " ++ toString b ++ rest) :
    it ∈ findExistingZoteroItems [it] a := by
  have hneedle : strContains it.extra (matcherNeedle a) = true := by
    apply occursIn_eq_true
    apply List.IsPrefix.isInfix
    obtain ⟨t, ht⟩ := hpre
    refine ⟨t ++ rest.data, ?_⟩
    rw [hextra]
    simp only [matcherNeedle, String.data_append]
    rw [← ht]
    simp [List.append_assoc]
  simp [findExistingZoteroItems, List.filter, hneedle]

/-- C4 witness: the amended statement applied at ids 12 and 123 and the
concrete stored record. -/
theorem c4_matching_is_substring_containment_witness :
    ((toString (12 : Nat)).data <+: (toString (123 : Nat)).data ∧
      item123.extra = "Wallabag ID: " ++ toString (123 : Nat) ++
        ("\n" ++ "Wallabag Link: https://s/view/123")) ∧
    item123 ∈ findExistingZoteroItems [item123] 12 := by
  refine ⟨⟨⟨['3'], by decide⟩, by decide⟩, ?_⟩
  exact c4_matching_is_substring_containment item123 12 123
    ("\n" ++ "Wallabag Link: https://s/view/123") ⟨['3'], by decide⟩ (by decide)

/-- C5: a pass-level failure (the listing oracle, which covers both the
authentication step and the entry listing, returns an error) leaves the
watermark unchanged across the call; and the watermark is set to "now",
never moving backwards, exactly when the full entry list was fetched
and processed. -/
theorem c5_watermark_only_on_success (serverUrl : String) (fails : WallabagEntry → Bool)
    (listing : Option Nat → Except String (List WallabagEntry)) (now : Nat) (st : SyncState)
    (hforward : st.lastTimestamp ≤ now) :
    (∀ e, listing (syncSinceArg st) = .error e →
      (syncWallabagEntries serverUrl fails listing now st).2.lastTimestamp = st.lastTimestamp) ∧
    (∀ entries, st.syncInProgress = false → listing (syncSinceArg st) = .ok entries →
      (syncWallabagEntries serverUrl fails listing now st).2.lastTimestamp = now ∧
      st.lastTimestamp ≤ (syncWallabagEntries serverUrl fails listing now st).2.lastTimestamp) := by
  by_cases hflag : st.syncInProgress
  · constructor
    · intro e _
      simp [syncWallabagEntries, hflag]
    · intro entries hfalse _
      rw [hfalse] at hflag
      cases hflag
  · constructor
    · intro e he
      simp only [syncWallabagEntries, hflag, if_false, Bool.false_eq_true]
      rw [syncSinceArg_setFlag, he]
    · intro entries _ hok
      simp only [syncWallabagEntries, hflag, if_false, Bool.false_eq_true]
      rw [syncSinceArg_setFlag, hok]
      exact ⟨rfl, hforward⟩

/-- C5 witness: the theorem applied at a concrete state with watermark
5, once with a failing listing (watermark stays 5) and once with a
successful listing (watermark becomes 10). -/
theorem c5_watermark_only_on_success_witness :
    ((5 : Nat) ≤ 10) ∧
    (syncWallabagEntries "s" (fun _ => false) (fun _ => .error "boom") 10
      { syncInProgress := false, lastTimestamp := 5, items := [] }).2.lastTimestamp = 5 ∧
    (syncWallabagEntries "s" (fun _ => false) (fun _ => .ok []) 10
      { syncInProgress := false, lastTimestamp := 5, items := [] }).2.lastTimestamp = 10 := by
  refine ⟨by decide, ?_, ?_⟩
  · exact (c5_watermark_only_on_success "s" (fun _ => false) (fun _ => .error "boom") 10
      { syncInProgress := false, lastTimestamp := 5, items := [] } (by decide)).1 "boom" rfl
  · exact ((c5_watermark_only_on_success "s" (fun _ => false) (fun _ => .ok []) 10
      { syncInProgress := false, lastTimestamp := 5, items := [] } (by decide)).2 [] rfl rfl).1

/-- The instrumented pagination loop, run on any page list, appends the
fetched items, the requested page numbers and the cumulative progress
reports to its accumulator. -/
theorem getAllEntriesLoop_eq (fetch : Nat → EntriesPage) (total : Nat) :
    ∀ (ps : List Nat) (es : List WallabagEntry) (reqs : List Nat) (prog : List (Nat × Nat)),
      getAllEntriesLoop fetch total ps (es, reqs, prog) =
        (es ++ ps.flatMap (pageItems fetch), reqs ++ ps,
          prog ++ cumAfter fetch total es.length ps) := by
  intro ps
  induction ps with
  | nil => intro es reqs prog; simp [getAllEntriesLoop, cumAfter]
  | cons p ps ih =>
    intro es reqs prog
    simp only [getAllEntriesLoop, ih, cumAfter, pageItems, List.flatMap_cons,
      List.length_append]
    simp [List.append_assoc]

/-- Cumulative progress over the pages t+1, t+2, ... matches, page by
page, the length of the concatenation of all items up to that page. -/
theorem cumAfter_range' (fetch : Nat → EntriesPage) (total : Nat) :
    ∀ (k t : Nat),
      cumAfter fetch total ((List.range' 1 t).flatMap (pageItems fetch)).length
          (List.range' (t + 1) k) =
        (List.range' (t + 1) k).map
          (fun p => (((List.range' 1 p).flatMap (pageItems fetch)).length, total)) := by
  intro k
  induction k with
  | zero => intro t; simp [cumAfter]
  | succ k ih =>
    intro t
    rw [List.range'_succ]
    simp only [cumAfter, List.map_cons]
    have hlen : ((List.range' 1 t).flatMap (pageItems fetch)).length +
        (fetch (t + 1)).items.length =
        ((List.range' 1 (t + 1)).flatMap (pageItems fetch)).length := by
      have hconcat : List.range' 1 (t + 1) = List.range' 1 t ++ [1 + t] := by
        simpa using @List.range'_concat 1 1 t
      rw [hconcat]
      simp [pageItems, Nat.add_comm]
    rw [hlen]
    rw [ih (t + 1)]

/-- C6: when the first page reports N total pages (N at least 1),
getAllEntries requests exactly the pages 1 through N in order, returns
the concatenation of the pages' items in first-page-first order, and
reports progress after each page with the cumulative item count and the
reported total. -/
theorem c6_getAllEntries_pagination (fetch : Nat → EntriesPage) (N : Nat)
    (hN : 1 ≤ N) (hpages : (fetch 1).pages = N) :
    (getAllEntries fetch).2.1 = List.range' 1 N ∧
    (getAllEntries fetch).1 = (List.range' 1 N).flatMap (pageItems fetch) ∧
    (getAllEntries fetch).2.2 = (List.range' 1 N).map
      (fun p => (((List.range' 1 p).flatMap (pageItems fetch)).length, (fetch 1).total)) := by
  match N, hN with
  | 1, _ =>
    simp only [getAllEntries, hpages]
    norm_num
    simp [List.range'_one, pageItems]
  | (M + 2), _ =>
    have hgt : (M + 2) > 1 := by omega
    simp only [getAllEntries, hpages, if_pos hgt]
    have hrem : (List.range ((M + 2) - 1)).map (fun i => i + 2) = List.range' 2 (M + 1) := by
      rw [List.range'_eq_map_range]
      simp [Nat.add_comm]
    rw [hrem, getAllEntriesLoop_eq]
    have hsplit : List.range' 1 (M + 2) = 1 :: List.range' 2 (M + 1) := by
      simpa using List.range'_succ 1 (M + 1) 1
    have hbase : (fetch 1).items.length =
        ((List.range' 1 1).flatMap (pageItems fetch)).length := by
      simp [List.range'_one, pageItems]
    refine ⟨?_, ?_, ?_⟩
    · rw [hsplit]; rfl
    · rw [hsplit, List.flatMap_cons]; rfl
    · rw [hsplit, List.map_cons, hbase, cumAfter_range' fetch (fetch 1).total (M + 1) 1]
      simp [List.range'_one, pageItems]

/-- C6 witness: the theorem applied to the concrete three-page catalog;
the requested pages are 1, 2, 3 and the progress reports are the
cumulative counts 1, 2, 3 against the reported total 5. -/
theorem c6_getAllEntries_pagination_witness :
    ((1 : Nat) ≤ 3 ∧ (fetchThreePages 1).pages = 3) ∧
    (getAllEntries fetchThreePages).2.1 = List.range' 1 3 ∧
    (getAllEntries fetchThreePages).2.2 = [(1, 5), (2, 5), (3, 5)] := by
  refine ⟨⟨by decide, rfl⟩, (c6_getAllEntries_pagination fetchThreePages 3 (by decide) rfl).1, ?_⟩
  rw [(c6_getAllEntries_pagination fetchThreePages 3 (by decide) rfl).2.2]
  decide

/-- C7: the claim says an entry with k non-empty authors yields k
creators.  The create path calls setCreator at constant index 0 inside
the author loop, so every author overwrites the previous one: for the
concrete entry with the two non-empty authors Alice and Bob the created
record holds exactly one creator, Bob, in the family-name slot.  This
theorem evaluates the embedded code at the failing input. -/
theorem c7_authors_collapse_to_one_creator :
    entryTwoAuthors.published_by = ["Alice", "Bob"] ∧
    (createZoteroItemFromWallabagEntry "https://s" entryTwoAuthors).creators =
      [{ firstName := "", lastName := "Bob", creatorType := "author" }] ∧
    (createZoteroItemFromWallabagEntry "https://s" entryTwoAuthors).creators.length = 1 := by
  decide

/-- C8 counterexample: the claim says the staging file is removed on
every exit path.  When creating the attachment from the staging
location fails, saveAttachment rethrows with the staging file still
present: starting from a clean temp directory, the failing call leaves
stagingExists true. -/
theorem c8_staging_file_leaks_on_failure :
    saveAttachment false "application/pdf" { stagingExists := false, attachments := [] } =
      .error { stagingExists := true, attachments := [] } := rfl

/-- C8 amended: the staging file is removed after the attachment is
created successfully, but when creating the attachment from the staging
location fails the removal is skipped — the error path always carries a
state in which the staging file still exists. -/
theorem c8_staging_cleanup_success_only (contentType : String) (fs : AttachFs) :
    stagingAfter (saveAttachment true contentType fs) = false ∧
    stagingAfter (saveAttachment false contentType fs) = true :=
  ⟨rfl, rfl⟩

/-- C9: processing continues past entries whose reconciliation throws:
the final tally always satisfies added + updated + errors = number of
entries, the error counter equals the number of throwing entries, and
the added and updated counters together account for exactly the
non-throwing entries — each entry contributes to exactly one counter,
wherever in the list the failures sit. -/
theorem c9_entry_failure_isolation (serverUrl : String) (fails : WallabagEntry → Bool)
    (entries : List WallabagEntry) (items : List ZoteroItem) :
    (processEntries serverUrl fails entries items).1.added +
      (processEntries serverUrl fails entries items).1.updated +
      (processEntries serverUrl fails entries items).1.errors = entries.length ∧
    (processEntries serverUrl fails entries items).1.errors =
      (entries.filter fails).length ∧
    (processEntries serverUrl fails entries items).1.added +
      (processEntries serverUrl fails entries items).1.updated =
      (entries.filter (fun e => !(fails e))).length := by
  induction entries generalizing items with
  | nil => simp [processEntries]
  | cons e rest ih =>
    cases hfb : fails e with
    | true =>
      have h := ih items
      simp [processEntries, hfb, List.filter_cons]
      omega
    | false =>
      simp only [processEntries, hfb, Bool.false_eq_true, if_false, List.filter_cons,
        Bool.not_false, if_true, List.length_cons]
      by_cases hex : (findExistingZoteroItems items e.id).length > 0
      · have h := ih (updateFirstWhere
          (fun it => strContains it.extra (matcherNeedle e.id))
          (fun it => updateZoteroItem serverUrl it e) items)
        simp [hex]
        omega
      · have h := ih (items ++ [createZoteroItemFromWallabagEntry serverUrl e])
        simp [hex]
        omega

/-- C10: the legacy downloadPdf flag shadows the per-format toggles.
With the flag set, the create path attempts only the PDF export and the
result is the same for any two preference states (the toggles are never
consulted); with the flag clear, the per-format loop runs (all six
formats when every toggle is on, none when every toggle is off).  The
update path of a scheduled pass reads only the legacy flag: it attempts
the PDF export exactly when the flag is set and no PDF attachment is
present, and can never attempt any other format. -/
theorem c10_legacy_flag_shadows_toggles (p q : FormatPrefs) (hasPdf : Bool) :
    createFormatsAttempted true p = ["pdf"] ∧
    createFormatsAttempted true p = createFormatsAttempted true q ∧
    createFormatsAttempted false
        { xml := true, json := true, txt := true, csv := true, pdf := true, epub := true } =
      ["xml", "json", "txt", "csv", "pdf", "epub"] ∧
    createFormatsAttempted false
        { xml := false, json := false, txt := false, csv := false, pdf := false, epub := false } =
      [] ∧
    updateFormatsAttempted true false = ["pdf"] ∧
    updateFormatsAttempted true true = [] ∧
    updateFormatsAttempted false hasPdf = [] := by
  refine ⟨rfl, rfl, by decide, by decide, rfl, rfl, rfl⟩

end ZotBag
